import Mathlib

/-!
Verification of the DREAM Monte-Carlo STNU execution simulator
(`libheat/montsim.py`) and the CSV report helper (`sim2csv.py`).

The simulator code is embedded shallowly: the `Simulator` instance
attributes become the explicit record `SimState`, mutation becomes state
passing, Python floats become rationals, exceptions become the
`SimOutcome.crashed` outcome, and the external SREA solver becomes an
oracle parameter `SreaOracle`.  The STN graph class lives outside the
repository snapshot; its surface is modelled from the specification's ADT
contract (sections 3 and 6 of the spec) and each such definition is marked
"Modelled from the spec".
-/

abbrev VertId := Nat

def Z_NODE_ID : VertId := 0

/-- Modelled from the spec: a timepoint carries an executed flag
(initially false, set upon assignment). -/
structure Vertex where
  executed : Bool
deriving DecidableEq

/-- Modelled from the spec: a requirement edge from `i` to `j` represents
`t_j - t_i ≤ weight`; `weightMin` is the lower bound the edge object
exposes through `get_weight_min`. -/
structure Edge where
  i : VertId
  j : VertId
  weightMin : ℚ
  weight : ℚ
deriving DecidableEq

/-- Modelled from the spec: a contingent edge carries a bounded interval
`[lo, hi]` and a sampled duration populated once per run by
`resample`. -/
structure ContEdge where
  i : VertId
  j : VertId
  lo : ℚ
  hi : ℚ
  sampled : ℚ
deriving DecidableEq

/-- Modelled from the spec (section 3): an STN is a mapping from vertex id
to vertex, a mapping from ordered pair to edge, the contingent edges, and
the set of received (contingent-target) timepoints.  The mappings are
association lists with Python-dict lookup semantics. -/
structure STN where
  verts : List (VertId × Vertex)
  edges : List ((VertId × VertId) × Edge)
  contingentEdges : List ((VertId × VertId) × ContEdge)
  receivedTimepoints : List VertId
deriving DecidableEq

/-- First-match association-list lookup (Python dict access). -/
def alookup {α β : Type} [DecidableEq α] : List (α × β) → α → Option β
  | [], _ => none
  | (k, v) :: rest, key => if k = key then some v else alookup rest key

/-- Overwrite the value stored at an existing key, leaving the rest of the
list untouched.  Keys that are absent are not inserted. -/
def aupdate {α β : Type} [DecidableEq α] : List (α × β) → α → β → List (α × β)
  | [], _, _ => []
  | (k, v) :: rest, key, nv =>
      if k = key then (key, nv) :: rest else (k, v) :: aupdate rest key nv

/-- Modelled from the spec: `stn.get_vertex(id)`; a missing id is a lookup
failure (Python `KeyError`). -/
def get_vertex (stn : STN) (i : VertId) : Option Vertex :=
  alookup stn.verts i

def set_vertex (stn : STN) (i : VertId) (v : Vertex) : STN :=
  { stn with verts := aupdate stn.verts i v }

def get_all_verts (stn : STN) : List Vertex :=
  stn.verts.map (fun p => p.2)

/-- Modelled from the spec: `get_incoming(v)` returns the requirement
edges whose target is `v`. -/
def get_incoming (stn : STN) (v : VertId) : List Edge :=
  (stn.edges.filter (fun p => p.2.j = v)).map (fun p => p.2)

/-- Modelled from the spec: `get_incoming_contingent(v)` returns the
unique contingent edge into `v`, if any. -/
def get_incoming_contingent (stn : STN) (v : VertId) : Option ContEdge :=
  ((stn.contingentEdges.filter (fun p => p.2.j = v)).map (fun p => p.2)).head?

/-- Modelled from the spec: `get_edge_weight(i, j)` reads the stored
upper bound of the pair `(i, j)`. -/
def get_edge_weight (stn : STN) (i j : VertId) : Option ℚ :=
  (alookup stn.edges (i, j)).map (fun e => e.weight)

/-- Modelled from the spec: `update_edge(i, j, w, create, force)` creates
or overwrites the requirement bound of the ordered pair `(i, j)`; without
`force` the update only tightens. -/
def update_edge (stn : STN) (i j : VertId) (w : ℚ) (create force : Bool) : STN :=
  match alookup stn.edges (i, j) with
  | some e =>
      if force || decide (w < e.weight) then
        { stn with edges := aupdate stn.edges (i, j) { e with weight := w } }
      else stn
  | none =>
      if create then
        { stn with edges := stn.edges ++ [((i, j), ⟨i, j, w, w⟩)] }
      else stn

/-- Modelled from the spec: `get_assigned_time(v)` is the time pinned by
the `(Z → v)` and `(v → Z)` constraints, null while unassigned; `Z`'s
implicit time is 0. -/
def get_assigned_time (stn : STN) (v : VertId) : Option ℚ :=
  if v = Z_NODE_ID then some 0
  else
    match get_edge_weight stn Z_NODE_ID v, get_edge_weight stn v Z_NODE_ID with
    | some ub, some lb => if ub = -lb then some ub else none
    | _, _ => none

/-- Modelled from the spec: `outgoing_executed(v)` holds when every
outgoing edge of `v` (requirement or contingent) points at an executed
vertex. -/
def outgoing_executed (stn : STN) (v : VertId) : Bool :=
  (stn.edges.all
      (fun p => !(p.2.i = v : Bool) || (get_vertex stn p.2.j).elim false Vertex.executed))
  && (stn.contingentEdges.all
      (fun p => !(p.2.i = v : Bool) || (get_vertex stn p.2.j).elim false Vertex.executed))

/-- Modelled from the spec: `remove_vertex(id)` removes the vertex and its
incident edges. -/
def remove_vertex (stn : STN) (v : VertId) : STN :=
  { verts := stn.verts.filter (fun p => !(p.1 = v : Bool)),
    edges := stn.edges.filter (fun p => !(p.2.i = v : Bool) && !(p.2.j = v : Bool)),
    contingentEdges :=
      stn.contingentEdges.filter (fun p => !(p.2.i = v : Bool) && !(p.2.j = v : Bool)),
    receivedTimepoints := stn.receivedTimepoints.filter (fun i => !(i = v : Bool)) }

/-- Optional-rational addition where `none` stands for +infinity. -/
def oadd : Option ℚ → Option ℚ → Option ℚ
  | some a, some b => some (a + b)
  | _, _ => none

/-- Optional-rational minimum where `none` stands for +infinity. -/
def omin : Option ℚ → Option ℚ → Option ℚ
  | some a, some b => some (min a b)
  | some a, none => some a
  | none, b => b

/-- Modelled from the spec: the initial all-pairs distance matrix, built
from requirement upper bounds and contingent interval bounds, with a zero
diagonal. -/
def base_dist (stn : STN) (i j : VertId) : Option ℚ :=
  let req := (alookup stn.edges (i, j)).map (fun e => e.weight)
  let contF := (alookup stn.contingentEdges (i, j)).map (fun c => c.hi)
  let contB := (alookup stn.contingentEdges (j, i)).map (fun c => -c.lo)
  let diag : Option ℚ := if i = j then some 0 else none
  omin (omin req contF) (omin contB diag)

def fw_relax (d : VertId → VertId → Option ℚ) (k : VertId) :
    VertId → VertId → Option ℚ :=
  fun i j => omin (d i j) (oadd (d i k) (d k j))

def fw_dist (stn : STN) : VertId → VertId → Option ℚ :=
  (stn.verts.map (fun p => p.1)).foldl fw_relax (base_dist stn)

def fw_consistent (stn : STN) : Bool :=
  (stn.verts.map (fun p => p.1)).all (fun v =>
    match fw_dist stn v v with
    | some q => decide (0 ≤ q)
    | none => true)

/-- Modelled from the spec: `floyd_warshall()` minimizes the STN (stored
edge bounds become shortest-path values) and returns false iff a negative
cycle exists. -/
def floyd_warshall (stn : STN) : Bool × STN :=
  let d := fw_dist stn
  let minimized :=
    { stn with
      edges := stn.edges.map (fun p =>
        (p.1,
         { p.2 with
           weight := (d p.1.1 p.1.2).getD p.2.weight,
           weightMin := ((d p.1.2 p.1.1).map (fun q => -q)).getD p.2.weightMin })) }
  (fw_consistent stn, minimized)

/-- The `Simulator` instance attributes of `montsim.py`, plus the ghost
counter `sreaCalls` instrumenting every invocation of the external
`srea.srea` solver, and the index into the random stream consumed by
`resample_stored_stn`. -/
structure SimState where
  stn : STN
  assignmentStn : STN
  currentTime : ℚ
  arContingentEventCounter : ℕ
  numReschedules : ℕ
  numSentSchedules : ℕ
  sreaCalls : ℕ
  rngIndex : ℕ
deriving DecidableEq

inductive PyError where
  | valueError
  | keyError
  | nameError
deriving DecidableEq

/-- Result of one `simulate` call: Python `True`, Python `False`, an
uncaught exception, or exhaustion of the step fuel (the Python loop has no
intrinsic bound). -/
inductive SimOutcome where
  | success
  | failure
  | crashed (e : PyError)
  | diverged
deriving DecidableEq

/-- The recognized keys of the `sim_options` dictionary; `none` models an
absent key, whose access raises `KeyError`. -/
structure SimOptions where
  siThreshold : Option ℚ
  arThreshold : Option ℚ
  alpThreshold : Option ℚ
deriving DecidableEq

/-- The external SREA solver: given the working STN it returns
`(alpha, guide)` or `none` for infeasibility. -/
abbrev SreaOracle := STN → Option (ℚ × STN)

/-- `remaining_contingent_count`: received timepoints still unexecuted. -/
def remaining_contingent_count (stn : STN) : ℕ :=
  stn.receivedTimepoints.foldl (fun n i =>
    match get_vertex stn i with
    | some v => if v.executed then n else n + 1
    | none => n) 0

/-- `_srea_wrapper`: run SREA, or keep the previous guide when it is
infeasible. -/
def srea_wrapper (oracle : SreaOracle) (previousAlpha : ℚ) (previousGuide : STN)
    (st : SimState) : (ℚ × STN) × SimState :=
  let st1 := { st with sreaCalls := st.sreaCalls + 1 }
  match oracle st.stn with
  | some r => ((r.1, r.2), st1)
  | none => ((previousAlpha, previousGuide), st1)

/-- `_srea_algorithm`. -/
def srea_algorithm (oracle : SreaOracle) (previousAlpha : ℚ) (previousGuide : STN)
    (firstRun : Bool) (st : SimState) : (ℚ × STN) × SimState :=
  if firstRun then
    let st1 := { st with
      numReschedules := st.numReschedules + 1,
      numSentSchedules := st.numSentSchedules + 1 }
    srea_wrapper oracle previousAlpha previousGuide st1
  else ((previousAlpha, previousGuide), st)

/-- `_drea_algorithm`. -/
def drea_algorithm (oracle : SreaOracle) (previousAlpha : ℚ) (previousGuide : STN)
    (firstRun executedContingent : Bool) (st : SimState) : (ℚ × STN) × SimState :=
  if firstRun || executedContingent then
    let st1 := { st with
      numReschedules := st.numReschedules + 1,
      numSentSchedules := st.numSentSchedules + 1 }
    srea_wrapper oracle previousAlpha previousGuide st1
  else ((previousAlpha, previousGuide), st)

/-- `_drea_si_algorithm`. -/
def drea_si_algorithm (oracle : SreaOracle) (previousAlpha : ℚ) (previousGuide : STN)
    (firstRun executedContingent : Bool) (threshold : ℚ) (st : SimState) :
    (ℚ × STN) × SimState :=
  if firstRun then
    let st1 := { st with
      sreaCalls := st.sreaCalls + 1,
      numReschedules := st.numReschedules + 1,
      numSentSchedules := st.numSentSchedules + 1 }
    match oracle st.stn with
    | none => ((previousAlpha, previousGuide), st1)
    | some r => ((r.1, r.2), st1)
  else if !executedContingent then ((previousAlpha, previousGuide), st)
  else
    let st1 := { st with
      sreaCalls := st.sreaCalls + 1,
      numReschedules := st.numReschedules + 1 }
    match oracle st.stn with
    | none => ((previousAlpha, previousGuide), st1)
    | some r =>
      let numCont := remaining_contingent_count r.2
      let p0 := (1 - previousAlpha) ^ numCont
      let p1 := (1 - r.1) ^ numCont
      if p1 - p0 > threshold then
        ((r.1, r.2), { st1 with numSentSchedules := st1.numSentSchedules + 1 })
      else ((previousAlpha, previousGuide), st1)

/-- `_drea_alp_algorithm`. -/
def drea_alp_algorithm (oracle : SreaOracle) (previousAlpha : ℚ) (previousGuide : STN)
    (firstRun executedContingent : Bool) (threshold : ℚ) (st : SimState) :
    (ℚ × STN) × SimState :=
  if firstRun then
    let st1 := { st with
      sreaCalls := st.sreaCalls + 1,
      numReschedules := st.numReschedules + 1 }
    match oracle st.stn with
    | none => ((previousAlpha, previousGuide), st1)
    | some r => ((r.1, r.2), st1)
  else if !executedContingent then ((previousAlpha, previousGuide), st)
  else
    let st1 := { st with
      sreaCalls := st.sreaCalls + 1,
      numReschedules := st.numReschedules + 1 }
    match oracle st.stn with
    | none => ((previousAlpha, previousGuide), st1)
    | some r =>
      if |r.1 - previousAlpha| > threshold then
        ((r.1, r.2), { st1 with numSentSchedules := st1.numSentSchedules + 1 })
      else ((previousAlpha, previousGuide), st1)

/-- The inner while loop of the AR test: starting from `n = 0`, advance
while `(1 - alpha) ^ (n + 1) > threshold`, at most `fuel` more times. -/
def ar_search_aux (alpha threshold : ℚ) : ℕ → ℕ → ℕ
  | n, 0 => n
  | n, fuel + 1 =>
      if (1 - alpha) ^ (n + 1) > threshold then ar_search_aux alpha threshold (n + 1) fuel
      else n

/-- The AR risk-bound search (`attempts` capped at 100). -/
def ar_search (alpha threshold : ℚ) : ℕ :=
  ar_search_aux alpha threshold 0 100

/-- The tail of `_drea_ar_algorithm` reached when the first-run SREA call
did not return a result (or on a non-first run). -/
def drea_ar_rest (oracle : SreaOracle) (previousAlpha : ℚ) (previousGuide : STN)
    (firstRun executedContingent : Bool) (threshold : ℚ) (counter : ℕ)
    (st : SimState) : (ℚ × STN × ℕ) × SimState :=
  if !executedContingent then ((previousAlpha, previousGuide, counter), st)
  else
    let n := ar_search previousAlpha threshold
    if counter ≥ n ∨ firstRun = true then
      let st1 := { st with sreaCalls := st.sreaCalls + 1 }
      match oracle st.stn with
      | some r =>
          ((r.1, r.2, 0),
           { st1 with
             numReschedules := st1.numReschedules + 1,
             numSentSchedules := st1.numSentSchedules + 1 })
      | none => ((previousAlpha, previousGuide, counter), st1)
    else ((previousAlpha, previousGuide, counter), st)

/-- `_drea_ar_algorithm`.  On the first run SREA is called and
`num_reschedules` is incremented only when a result came back. -/
def drea_ar_algorithm (oracle : SreaOracle) (previousAlpha : ℚ) (previousGuide : STN)
    (firstRun executedContingent : Bool) (threshold : ℚ) (counter : ℕ)
    (st : SimState) : (ℚ × STN × ℕ) × SimState :=
  if firstRun then
    let st1 := { st with sreaCalls := st.sreaCalls + 1 }
    match oracle st.stn with
    | some r =>
        ((r.1, r.2, counter), { st1 with numReschedules := st1.numReschedules + 1 })
    | none =>
        drea_ar_rest oracle previousAlpha previousGuide firstRun executedContingent
          threshold counter st1
  else
    drea_ar_rest oracle previousAlpha previousGuide firstRun executedContingent
      threshold counter st

/-- `_arsi_algorithm`. -/
def arsi_algorithm (oracle : SreaOracle) (previousAlpha : ℚ) (previousGuide : STN)
    (firstRun executedContingent : Bool) (counter : ℕ)
    (arThreshold siThreshold : ℚ) (st : SimState) : (ℚ × STN × ℕ) × SimState :=
  if firstRun then
    let st1 := { st with sreaCalls := st.sreaCalls + 1 }
    match oracle st.stn with
    | some r =>
        ((r.1, r.2, counter), { st1 with numReschedules := st1.numReschedules + 1 })
    | none => ((previousAlpha, previousGuide, counter), st1)
  else if !executedContingent then ((previousAlpha, previousGuide, counter), st)
  else
    let n := ar_search previousAlpha arThreshold
    if counter ≥ n then
      let st1 := { st with
        sreaCalls := st.sreaCalls + 1,
        numReschedules := st.numReschedules + 1 }
      match oracle st.stn with
      | none => ((previousAlpha, previousGuide, counter), st1)
      | some r =>
        let numCont := remaining_contingent_count r.2
        let p0 := (1 - previousAlpha) ^ numCont
        let p1 := (1 - r.1) ^ numCont
        if p1 - p0 > siThreshold then
          ((r.1, r.2, 0), { st1 with numSentSchedules := st1.numSentSchedules + 1 })
        else ((previousAlpha, previousGuide, counter), st1)
    else ((previousAlpha, previousGuide, counter), st)

/-- `get_guide`: dispatch on the strategy string.  For the AR-family
strategies the contingent-event counter is incremented before the
threshold key is read, matching the statement order in the source. -/
def get_guide (oracle : SreaOracle) (executionStrat : String) (previousAlpha : ℚ)
    (previousGuide : STN) (opts : SimOptions) (firstRun executedContingent : Bool)
    (st : SimState) : Except PyError (ℚ × STN) × SimState :=
  if executionStrat = "early" then (.ok (1, st.stn), st)
  else if executionStrat = "srea" then
    let r := srea_algorithm oracle previousAlpha previousGuide firstRun st
    (.ok r.1, r.2)
  else if executionStrat = "drea" then
    let r := drea_algorithm oracle previousAlpha previousGuide firstRun
      executedContingent st
    (.ok r.1, r.2)
  else if executionStrat = "drea-si" then
    match opts.siThreshold with
    | none => (.error .keyError, st)
    | some thr =>
      let r := drea_si_algorithm oracle previousAlpha previousGuide firstRun
        executedContingent thr st
      (.ok r.1, r.2)
  else if executionStrat = "drea-alp" then
    match opts.alpThreshold with
    | none => (.error .keyError, st)
    | some thr =>
      let r := drea_alp_algorithm oracle previousAlpha previousGuide firstRun
        executedContingent thr st
      (.ok r.1, r.2)
  else if executionStrat = "drea-ar" then
    let newCounter :=
      if executedContingent then st.arContingentEventCounter + 1
      else st.arContingentEventCounter
    let st1 := { st with arContingentEventCounter := newCounter }
    match opts.arThreshold with
    | none => (.error .keyError, st1)
    | some thr =>
      let r := drea_ar_algorithm oracle previousAlpha previousGuide firstRun
        executedContingent thr newCounter st1
      (.ok (r.1.1, r.1.2.1), { r.2 with arContingentEventCounter := r.1.2.2 })
  else if executionStrat = "arsi" then
    let newCounter :=
      if executedContingent then st.arContingentEventCounter + 1
      else st.arContingentEventCounter
    let st1 := { st with arContingentEventCounter := newCounter }
    match opts.arThreshold with
    | none => (.error .keyError, st1)
    | some arThr =>
      match opts.siThreshold with
      | none => (.error .keyError, st1)
      | some siThr =>
        let r := arsi_algorithm oracle previousAlpha previousGuide firstRun
          executedContingent newCounter arThr siThr st1
        (.ok (r.1.1, r.1.2.1), { r.2 with arContingentEventCounter := r.1.2.2 })
  else (.error .valueError, st)

/-- A vertex is enabled when all its requirement predecessors in the
dispatch STN are executed (a missing predecessor vertex counts as
unexecuted; the source would raise there, which no verified run reaches). -/
def is_enabled (dispatch : STN) (i : VertId) : Bool :=
  (get_incoming dispatch i).all
    (fun e => (get_vertex dispatch e.i).elim false Vertex.executed)

/-- The earliest execution time of candidate `i` in
`select_next_timepoint`.  Predecessor assigned times of the
non-contingent branch are read from the simulator's working STN, not from
the dispatch (as in the source).  `getD 0` stands where the source would
propagate a null/absent value into an arithmetic error; no verified run
reaches those defaults. -/
def earliest_time_for (workingStn dispatch : STN) (i : VertId) : ℚ :=
  match get_incoming_contingent dispatch i with
  | none =>
    match get_incoming dispatch i with
    | [] => 0
    | e :: rest =>
        (rest.map (fun e2 => e2.weightMin + ((get_assigned_time workingStn e2.i).getD 0))).foldl
          max (e.weightMin + ((get_assigned_time workingStn e.i).getD 0))
  | some ce =>
    match get_assigned_time dispatch ce.i with
    | none => (get_edge_weight dispatch Z_NODE_ID ce.i).getD 0
    | some t => t + ce.sampled

/-- `select_next_timepoint`: scan the dispatch vertices, keep the enabled
unexecuted vertex with the smallest earliest time (first wins on ties).
`none` in the first component is the source's `(None, inf)` return; the
second component reports whether the chosen vertex has an incoming
contingent edge. -/
def select_next_timepoint (workingStn dispatch : STN) (currentTime : ℚ) :
    Option (VertId × ℚ) × Bool :=
  dispatch.verts.foldl (fun acc p =>
    if p.2.executed then acc
    else if !(is_enabled dispatch p.1) then acc
    else
      let t := earliest_time_for workingStn dispatch p.1
      match acc.1 with
      | none => (some (p.1, t), (get_incoming_contingent dispatch p.1).isSome)
      | some q =>
          if q.2 > t then (some (p.1, t), (get_incoming_contingent dispatch p.1).isSome)
          else acc)
    (none, false)

/-- `assign_timepoint(stn, vert_id, time)`: pin the vertex to `time` via
force-updated edges (unless it is `Z`) and mark it executed.  A missing
vertex id surfaces the lookup failure of `stn.get_vertex(vert_id)`. -/
def assign_timepoint (stn : STN) (vertId : VertId) (time : ℚ) : Except PyError STN :=
  let stn1 :=
    if vertId ≠ Z_NODE_ID then
      update_edge (update_edge stn Z_NODE_ID vertId time true true)
        vertId Z_NODE_ID (-time) true true
    else stn
  match get_vertex stn1 vertId with
  | none => .error .keyError
  | some v => .ok (set_vertex stn1 vertId { v with executed := true })

/-- The STN produced by a successful `assign_timepoint` (unchanged input
on failure); a statement-level accessor. -/
def assign_result (stn : STN) (vertId : VertId) (time : ℚ) : STN :=
  match assign_timepoint stn vertId time with
  | .ok s => s
  | .error _ => stn

/-- `propagate_constraints`: Floyd-Warshall on the given STN. -/
def propagate_constraints (stnToProp : STN) : Bool × STN :=
  floyd_warshall stnToProp

/-- `all_assigned`: every vertex of the working STN is executed. -/
def all_assigned (stn : STN) : Bool :=
  (get_all_verts stn).all Vertex.executed

/-- `remove_old_timepoints`: drop executed non-Z vertices all of whose
outgoing edges point at executed vertices (keys snapshot first, as in the
source). -/
def remove_old_timepoints (stn : STN) : STN :=
  (stn.verts.map (fun p => p.1)).foldl (fun s vId =>
    if vId = 0 then s
    else if outgoing_executed s vId && ((get_vertex s vId).elim false Vertex.executed) then
      remove_vertex s vId
    else s) stn

/-- `resample_stored_stn`: redraw every contingent edge of the working STN
from the random stream (uniformly in `[lo, hi]`), consuming one draw per
edge. -/
def resample_stored_stn (rng : ℕ → ℚ) (st : SimState) : SimState :=
  let newCont := st.stn.contingentEdges.enum.map (fun q =>
    (q.2.1, { q.2.2 with sampled := q.2.2.lo + (q.2.2.hi - q.2.2.lo) * rng (st.rngIndex + q.1) }))
  { st with
    stn := { st.stn with contingentEdges := newCont },
    rngIndex := st.rngIndex + st.stn.contingentEdges.length }

/-- `get_assigned_times`: the reporting map over the assignment STN. -/
def get_assigned_times (st : SimState) : List (VertId × Option ℚ) :=
  st.assignmentStn.verts.map (fun p =>
    (p.1, if p.2.executed then get_assigned_time st.assignmentStn p.1 else none))

/-- The loop-carried locals of `simulate`: the `executed_contingent`
option, the current alpha and the current guide STN. -/
structure LoopCarry where
  executedContingent : Bool
  currentAlpha : ℚ
  guideStn : STN
  st : SimState

/-- One iteration of the dispatch loop of `simulate`: get the guide,
select the next timepoint, assign it on the guide, working and assignment
STNs, propagate a copy, clean up, and advance time.  `.inl` ends the run
(crash or inconsistency), `.inr` carries the next iteration's state.
A null selection flows into `assign_timepoint` with the null vertex, as
in the source, and surfaces that lookup failure. -/
def simulate_iteration (oracle : SreaOracle) (executionStrat : String)
    (opts : SimOptions) (firstRun executedContingent : Bool) (currentAlpha : ℚ)
    (guideStn : STN) (st : SimState) : (SimOutcome × SimState) ⊕ LoopCarry :=
  match get_guide oracle executionStrat currentAlpha guideStn opts firstRun
      executedContingent st with
  | (.error e, st1) => .inl (.crashed e, st1)
  | (.ok ag, st1) =>
    let sel := select_next_timepoint st1.stn ag.2 st1.currentTime
    match sel.1 with
    | none => .inl (.crashed .keyError, st1)
    | some vt =>
      match assign_timepoint ag.2 vt.1 vt.2 with
      | .error e => .inl (.crashed e, st1)
      | .ok guideStn2 =>
        match assign_timepoint st1.stn vt.1 vt.2 with
        | .error e => .inl (.crashed e, st1)
        | .ok stn2 =>
          let st2 := { st1 with stn := stn2 }
          match assign_timepoint st2.assignmentStn vt.1 vt.2 with
          | .error e => .inl (.crashed e, st2)
          | .ok astn =>
            let st3 := { st2 with assignmentStn := astn }
            let fw := propagate_constraints st3.stn
            if !fw.1 then .inl (.failure, st3)
            else
              let st4 := { st3 with
                stn := remove_old_timepoints fw.2,
                currentTime := vt.2 }
              .inr ⟨sel.2, ag.1, guideStn2, st4⟩

/-- The dispatch loop of `simulate`, fuelled (the Python loop has no
intrinsic step bound). -/
def simulate_loop (oracle : SreaOracle) (executionStrat : String) (opts : SimOptions) :
    ℕ → Bool → Bool → ℚ → STN → SimState → SimOutcome × SimState
  | 0, _, _, _, _, st => (.diverged, st)
  | fuel + 1, firstRun, executedContingent, currentAlpha, guideStn, st =>
    if all_assigned st.stn then (.success, st)
    else
      match simulate_iteration oracle executionStrat opts firstRun
          executedContingent currentAlpha guideStn st with
      | .inl done => done
      | .inr c =>
          simulate_loop oracle executionStrat opts fuel false c.executedContingent
            c.currentAlpha c.guideStn c.st

/-- `simulate(starting_stn, execution_strat, sim_options)`: reset the
state, resample the contingent edges, and run the dispatch loop with the
working STN as the initial guide and alpha 0. -/
def simulate (oracle : SreaOracle) (rng : ℕ → ℚ) (fuel : ℕ) (startingStn : STN)
    (executionStrat : String) (opts : SimOptions) : SimOutcome × SimState :=
  let st : SimState :=
    { stn := startingStn, assignmentStn := startingStn, currentTime := 0,
      arContingentEventCounter := 0, numReschedules := 0, numSentSchedules := 0,
      sreaCalls := 0, rngIndex := 0 }
  let st1 := resample_stored_stn rng st
  simulate_loop oracle executionStrat opts fuel true false 0 st1.stn st1

/-- Modelled from the spec: `np.random.RandomState(seed)` — a
deterministic stream of draws in `[0, 1)` determined entirely by the
seed.  Only that determinism matters to the simulator. -/
def rand_stream (seed : Option ℕ) : ℕ → ℚ :=
  fun n => (((seed.getD 0) + 37 * n) % 1000 : ℕ) / 1000

/-- A `Simulator(random_seed)` running one `simulate` call: the
constructor seeds the random state, everything else is per-run state. -/
def run_simulator (oracle : SreaOracle) (seed : Option ℕ) (fuel : ℕ)
    (startingStn : STN) (executionStrat : String) (opts : SimOptions) :
    SimOutcome × SimState :=
  simulate oracle (rand_stream seed) fuel startingStn executionStrat opts

/-- File-system side effects `save_csv_row` could perform. -/
inductive CsvIOAction where
  | checkIsFile (path : String)
  | writeCsv (path : String) (append : Bool)
deriving DecidableEq

/-- The names bound at module scope in `sim2csv.py`: `os` (via
`import os.path`), `pandas` (imported without an alias) and the function
itself. -/
def sim2csv_module_names : List String :=
  ["os", "pandas", "save_csv_row"]

/-- Python name resolution against a module namespace. -/
def resolve_name (names : List String) (n : String) : Bool :=
  names.contains n

/-- `save_csv_row(row, to_file)`: the body first evaluates
`pd.DataFrame.from_dict(row)`, so it first resolves the name `pd`; only
afterwards would it test `os.path.isfile` and write the CSV.  The result
pairs the file-system actions actually performed with the outcome. -/
def save_csv_row (fileExists : String → Bool) (row : List (String × ℚ))
    (toFile : String) : List CsvIOAction × Except PyError Unit :=
  if resolve_name sim2csv_module_names "pd" then
    if fileExists toFile then
      ([.checkIsFile toFile, .writeCsv toFile true], .ok ())
    else
      ([.checkIsFile toFile, .writeCsv toFile false], .ok ())
  else ([], .error .nameError)

def null_oracle : SreaOracle := fun _ => none

def default_opts : SimOptions := ⟨none, none, none⟩

def tiny_stn : STN :=
  { verts := [(0, ⟨false⟩)], edges := [], contingentEdges := [],
    receivedTimepoints := [] }

def w_state : SimState :=
  { stn := tiny_stn, assignmentStn := tiny_stn, currentTime := 0,
    arContingentEventCounter := 0, numReschedules := 0, numSentSchedules := 0,
    sreaCalls := 0, rngIndex := 0 }

lemma alookup_aupdate_self {α β : Type} [DecidableEq α] (l : List (α × β))
    (k : α) (v e : β) (h : alookup l k = some e) :
    alookup (aupdate l k v) k = some v := by
  induction l with
  | nil => simp [alookup] at h
  | cons p rest ih =>
    obtain ⟨pk, pv⟩ := p
    by_cases hk : pk = k
    · simp [alookup, aupdate, hk]
    · simp only [alookup, aupdate, if_neg hk] at h ⊢
      exact ih h

lemma alookup_aupdate_ne {α β : Type} [DecidableEq α] (l : List (α × β))
    (k k' : α) (v : β) (h : k' ≠ k) :
    alookup (aupdate l k v) k' = alookup l k' := by
  induction l with
  | nil => simp [aupdate]
  | cons p rest ih =>
    obtain ⟨pk, pv⟩ := p
    by_cases hk : pk = k
    · subst hk
      simp only [aupdate, if_pos rfl, alookup]
      rw [if_neg (fun hh => h hh.symm), if_neg (fun hh => h hh.symm)]
    · simp only [aupdate, if_neg hk, alookup]
      by_cases hk' : pk = k'
      · rw [if_pos hk', if_pos hk']
      · rw [if_neg hk', if_neg hk']
        exact ih

lemma alookup_append_right {α β : Type} [DecidableEq α] (l : List (α × β))
    (k : α) (v : β) (h : alookup l k = none) :
    alookup (l ++ [(k, v)]) k = some v := by
  induction l with
  | nil => simp [alookup]
  | cons p rest ih =>
    obtain ⟨pk, pv⟩ := p
    by_cases hk : pk = k
    · simp [alookup, hk] at h
    · simp only [alookup, if_neg hk] at h
      simpa [alookup, if_neg hk] using ih h

lemma alookup_append_ne {α β : Type} [DecidableEq α] (l : List (α × β))
    (k k' : α) (v : β) (h : k' ≠ k) :
    alookup (l ++ [(k, v)]) k' = alookup l k' := by
  induction l with
  | nil =>
    simp only [List.nil_append, alookup]
    rw [if_neg (fun hh => h hh.symm)]
  | cons p rest ih =>
    obtain ⟨pk, pv⟩ := p
    by_cases hk : pk = k'
    · simp [alookup, hk]
    · simpa [alookup, if_neg hk] using ih

lemma update_edge_verts (stn : STN) (i j : VertId) (w : ℚ) (c f : Bool) :
    (update_edge stn i j w c f).verts = stn.verts := by
  unfold update_edge
  split <;> split <;> rfl

lemma update_edge_contingent (stn : STN) (i j : VertId) (w : ℚ) (c f : Bool) :
    (update_edge stn i j w c f).contingentEdges = stn.contingentEdges := by
  unfold update_edge
  split <;> split <;> rfl

lemma get_edge_weight_update_self (stn : STN) (i j : VertId) (w : ℚ) :
    get_edge_weight (update_edge stn i j w true true) i j = some w := by
  unfold update_edge get_edge_weight
  rcases h : alookup stn.edges (i, j) with _ | e <;> simp only [h]
  · simp [alookup_append_right _ _ _ h]
  · simp [alookup_aupdate_self _ _ _ _ h]

lemma alookup_update_edge_ne (stn : STN) (i j : VertId) (w : ℚ) (c f : Bool)
    (p q : VertId) (h : (p, q) ≠ (i, j)) :
    alookup (update_edge stn i j w c f).edges (p, q) = alookup stn.edges (p, q) := by
  unfold update_edge
  split
  · split
    · exact alookup_aupdate_ne _ _ _ _ h
    · rfl
  · split
    · exact alookup_append_ne _ _ _ _ h
    · rfl

lemma set_vertex_edges (stn : STN) (i : VertId) (v : Vertex) :
    (set_vertex stn i v).edges = stn.edges := rfl

lemma set_vertex_contingent (stn : STN) (i : VertId) (v : Vertex) :
    (set_vertex stn i v).contingentEdges = stn.contingentEdges := rfl

/-- Claim C9: an `assign_timepoint(stn, v, t)` call on an existing vertex
`v` pins `v` when `v ≠ Z` — the edges `(Z → v, t)` and `(v → Z, -t)` are
force-created or overwritten, `v` is marked executed, and no other edge
changes — and when `v = Z` it leaves the edge set entirely unchanged,
setting only Z's executed flag, so Z's time is never pinned by an
assignment. -/
theorem c9_assign_timepoint_effect (stn : STN) (v : VertId) (t : ℚ)
    (vert : Vertex) (hv : get_vertex stn v = some vert) :
    (v ≠ Z_NODE_ID →
      assign_timepoint stn v t = .ok (assign_result stn v t) ∧
      get_edge_weight (assign_result stn v t) Z_NODE_ID v = some t ∧
      get_edge_weight (assign_result stn v t) v Z_NODE_ID = some (-t) ∧
      get_vertex (assign_result stn v t) v = some { vert with executed := true } ∧
      (∀ p q : VertId, ¬(p = Z_NODE_ID ∧ q = v) → ¬(p = v ∧ q = Z_NODE_ID) →
        alookup (assign_result stn v t).edges (p, q) = alookup stn.edges (p, q))) ∧
    (v = Z_NODE_ID →
      assign_timepoint stn v t = .ok (assign_result stn v t) ∧
      (assign_result stn v t).edges = stn.edges ∧
      (assign_result stn v t).contingentEdges = stn.contingentEdges ∧
      get_vertex (assign_result stn v t) v = some { vert with executed := true } ∧
      (∀ q : VertId, q ≠ v → get_vertex (assign_result stn v t) q = get_vertex stn q)) := by
  constructor
  · intro hne
    have hpairs : ((v : VertId), Z_NODE_ID) ≠ (Z_NODE_ID, v) := by
      intro hp
      exact hne (congrArg Prod.fst hp)
    set stn1 := update_edge (update_edge stn Z_NODE_ID v t true true)
      v Z_NODE_ID (-t) true true with hstn1
    have hverts1 : stn1.verts = stn.verts := by
      rw [hstn1, update_edge_verts, update_edge_verts]
    have hv1 : get_vertex stn1 v = some vert := by
      unfold get_vertex at hv ⊢
      rw [hverts1]
      exact hv
    have hassign : assign_timepoint stn v t =
        .ok (set_vertex stn1 v { vert with executed := true }) := by
      unfold assign_timepoint
      rw [if_pos hne, ← hstn1]
      simp only [hv1]
    have hres : assign_result stn v t = set_vertex stn1 v { vert with executed := true } := by
      unfold assign_result
      rw [hassign]
    refine ⟨by rw [hassign, hres], ?_, ?_, ?_, ?_⟩
    · rw [hres]
      show get_edge_weight stn1 Z_NODE_ID v = some t
      unfold get_edge_weight
      rw [hstn1, alookup_update_edge_ne _ _ _ _ _ _ _ _ (Ne.symm hpairs)]
      have := get_edge_weight_update_self stn Z_NODE_ID v t
      unfold get_edge_weight at this
      exact this
    · rw [hres]
      show get_edge_weight stn1 v Z_NODE_ID = some (-t)
      rw [hstn1]
      exact get_edge_weight_update_self _ v Z_NODE_ID (-t)
    · rw [hres]
      show alookup (aupdate stn1.verts v { vert with executed := true }) v =
        some { vert with executed := true }
      exact alookup_aupdate_self _ _ _ _ hv1
    · intro p q hpq1 hpq2
      rw [hres]
      show alookup stn1.edges (p, q) = alookup stn.edges (p, q)
      have h1 : ((p : VertId), q) ≠ (v, Z_NODE_ID) := by
        intro hh
        exact hpq2 ⟨congrArg Prod.fst hh, congrArg Prod.snd hh⟩
      have h2 : ((p : VertId), q) ≠ (Z_NODE_ID, v) := by
        intro hh
        exact hpq1 ⟨congrArg Prod.fst hh, congrArg Prod.snd hh⟩
      rw [hstn1, alookup_update_edge_ne _ _ _ _ _ _ _ _ h1,
        alookup_update_edge_ne _ _ _ _ _ _ _ _ h2]
  · intro hz
    subst hz
    have hassign : assign_timepoint stn Z_NODE_ID t =
        .ok (set_vertex stn Z_NODE_ID { vert with executed := true }) := by
      unfold assign_timepoint
      rw [if_neg (fun hh => hh rfl)]
      simp only [hv]
    have hres : assign_result stn Z_NODE_ID t =
        set_vertex stn Z_NODE_ID { vert with executed := true } := by
      unfold assign_result
      rw [hassign]
    refine ⟨by rw [hassign, hres], by rw [hres]; rfl, by rw [hres]; rfl, ?_, ?_⟩
    · rw [hres]
      show alookup (aupdate stn.verts Z_NODE_ID { vert with executed := true }) Z_NODE_ID =
        some { vert with executed := true }
      exact alookup_aupdate_self _ _ _ _ hv
    · intro q hq
      rw [hres]
      show alookup (aupdate stn.verts Z_NODE_ID { vert with executed := true }) q =
        alookup stn.verts q
      exact alookup_aupdate_ne _ _ _ _ hq

def c9_stn : STN :=
  { verts := [(0, ⟨true⟩), (1, ⟨false⟩)], edges := [], contingentEdges := [],
    receivedTimepoints := [] }

theorem c9_assign_timepoint_effect_witness :
    get_edge_weight (assign_result c9_stn 1 5) Z_NODE_ID 1 = some 5 ∧
    get_edge_weight (assign_result c9_stn 1 5) 1 Z_NODE_ID = some (-5) ∧
    get_vertex (assign_result c9_stn 1 5) 1 = some ⟨true⟩ :=
  have h := c9_assign_timepoint_effect c9_stn 1 5 ⟨false⟩ rfl
  ⟨(h.1 (by decide)).2.1, (h.1 (by decide)).2.2.1, (h.1 (by decide)).2.2.2.1⟩

/-- Claim C10: `save_csv_row` resolves the undefined name `pd` before any
file-system access, so every call fails with a `NameError` and performs no
I/O. -/
theorem c10_save_csv_row_name_error :
    ∀ (fileExists : String → Bool) (row : List (String × ℚ)) (toFile : String),
      save_csv_row fileExists row toFile = ([], .error .nameError) :=
  fun _ _ _ => rfl

/-- Claim C2 (code bug): under `drea-ar` on a first run with an infeasible
SREA, the oracle is called once yet `num_reschedules` is not incremented,
so an SREA call does not always increment `num_reschedules`; and under
`srea` on a first run with an infeasible SREA, `num_sent_schedules` is
incremented although the previous guide is kept, so the sent counter can
move without an adopted broadcast. -/
theorem c2_counter_slip :
    ∀ (previousAlpha : ℚ) (previousGuide : STN) (threshold : ℚ) (counter : ℕ)
      (st : SimState),
      (drea_ar_algorithm null_oracle previousAlpha previousGuide true false
          threshold counter st).2.sreaCalls = st.sreaCalls + 1 ∧
      (drea_ar_algorithm null_oracle previousAlpha previousGuide true false
          threshold counter st).2.numReschedules = st.numReschedules ∧
      (drea_ar_algorithm null_oracle previousAlpha previousGuide true false
          threshold counter st).1 = (previousAlpha, previousGuide, counter) ∧
      (srea_algorithm null_oracle previousAlpha previousGuide true st).2.numSentSchedules
          = st.numSentSchedules + 1 ∧
      (srea_algorithm null_oracle previousAlpha previousGuide true st).1
          = (previousAlpha, previousGuide) :=
  fun _ _ _ _ _ => ⟨rfl, rfl, rfl, rfl, rfl⟩

/-- Claim C8: two simulators constructed with the same random seed and run
on the same starting STN, strategy and options produce identical assigned
times, identical counters and the same outcome; the random stream seeded
at construction is the only stochastic input of the embedded simulator. -/
theorem c8_seed_determinism (oracle : SreaOracle) (seed1 seed2 : Option ℕ)
    (hseed : seed1 = seed2) (fuel : ℕ) (startingStn : STN) (strat : String)
    (opts : SimOptions) :
    get_assigned_times (run_simulator oracle seed1 fuel startingStn strat opts).2 =
      get_assigned_times (run_simulator oracle seed2 fuel startingStn strat opts).2 ∧
    (run_simulator oracle seed1 fuel startingStn strat opts).2.numReschedules =
      (run_simulator oracle seed2 fuel startingStn strat opts).2.numReschedules ∧
    (run_simulator oracle seed1 fuel startingStn strat opts).2.numSentSchedules =
      (run_simulator oracle seed2 fuel startingStn strat opts).2.numSentSchedules ∧
    (run_simulator oracle seed1 fuel startingStn strat opts).1 =
      (run_simulator oracle seed2 fuel startingStn strat opts).1 := by
  subst hseed
  exact ⟨rfl, rfl, rfl, rfl⟩

theorem c8_seed_determinism_witness :
    get_assigned_times (run_simulator null_oracle (some 42) 3 tiny_stn "early" default_opts).2 =
      get_assigned_times (run_simulator null_oracle (some 42) 3 tiny_stn "early" default_opts).2 ∧
    (run_simulator null_oracle (some 42) 3 tiny_stn "early" default_opts).2.numReschedules =
      (run_simulator null_oracle (some 42) 3 tiny_stn "early" default_opts).2.numReschedules ∧
    (run_simulator null_oracle (some 42) 3 tiny_stn "early" default_opts).2.numSentSchedules =
      (run_simulator null_oracle (some 42) 3 tiny_stn "early" default_opts).2.numSentSchedules ∧
    (run_simulator null_oracle (some 42) 3 tiny_stn "early" default_opts).1 =
      (run_simulator null_oracle (some 42) 3 tiny_stn "early" default_opts).1 :=
  c8_seed_determinism null_oracle (some 42) (some 42) rfl 3 tiny_stn "early" default_opts

/-- C1 failing input: besides Z, two unexecuted timepoints that are each
other's requirement predecessors, so after Z fires nothing is ever
enabled and `select_next_timepoint` returns the null vertex. -/
def c1_stn : STN :=
  { verts := [(0, ⟨false⟩), (1, ⟨false⟩), (2, ⟨false⟩)],
    edges := [((1, 2), ⟨1, 2, 1, 1⟩), ((2, 1), ⟨2, 1, 1, 1⟩)],
    contingentEdges := [], receivedTimepoints := [] }

unseal Rat.add Rat.mul Rat.inv Rat.sub

/-- Claim C1 (code bug): when `select_next_timepoint` returns the null
vertex while unassigned vertices remain, `simulate` does not return false;
the null vertex flows unchecked into `assign_timepoint`, whose vertex
lookup fails, so the run dies with an uncaught exception instead of the
specified inconsistency result. -/
theorem c1_null_selection_crashes :
    (simulate null_oracle (rand_stream (some 0)) 10 c1_stn "early" default_opts).1
        = .crashed .keyError ∧
    (simulate null_oracle (rand_stream (some 0)) 10 c1_stn "early" default_opts).1
        ≠ .failure := by
  have h : (simulate null_oracle (rand_stream (some 0)) 10 c1_stn "early" default_opts).1
      = .crashed .keyError := by decide
  refine ⟨h, ?_⟩
  rw [h]
  intro hh
  cases hh

/-- A starting STN whose only vertex is already executed: the dispatch
loop never runs. -/
def c3_executed_stn : STN :=
  { verts := [(0, ⟨true⟩)], edges := [], contingentEdges := [],
    receivedTimepoints := [] }

/-- Claim C3 counterexample: with every vertex already executed, the loop
body never runs, so `simulate` with the unknown strategy `"bogus"`
returns true and raises no argument error at all — the strategy check is
not performed before the dispatch loop. -/
theorem c3_unknown_strategy_counterexample :
    (simulate null_oracle (rand_stream none) 5 c3_executed_stn "bogus" default_opts).1
        = .success ∧
    (simulate null_oracle (rand_stream none) 5 c3_executed_stn "bogus" default_opts).1
        ≠ .crashed .valueError := by
  have h : (simulate null_oracle (rand_stream none) 5 c3_executed_stn "bogus" default_opts).1
      = .success := by decide
  refine ⟨h, ?_⟩
  rw [h]
  intro hh
  cases hh

lemma all_assigned_resample (rng : ℕ → ℚ) (st : SimState) :
    all_assigned (resample_stored_stn rng st).stn = all_assigned st.stn := by
  rfl

lemma get_guide_unknown (oracle : SreaOracle) (strat : String) (previousAlpha : ℚ)
    (previousGuide : STN) (opts : SimOptions) (firstRun executedContingent : Bool)
    (st : SimState)
    (h : strat ∉ (["early", "srea", "drea", "drea-si", "drea-alp", "drea-ar",
      "arsi"] : List String)) :
    get_guide oracle strat previousAlpha previousGuide opts firstRun
      executedContingent st = (.error .valueError, st) := by
  simp only [List.mem_cons, List.not_mem_nil, or_false, not_or] at h
  obtain ⟨h1, h2, h3, h4, h5, h6, h7⟩ := h
  unfold get_guide
  rw [if_neg h1, if_neg h2, if_neg h3, if_neg h4, if_neg h5, if_neg h6, if_neg h7]

/-- Claim C3 amended: an unknown strategy string raises the argument error
on the first `get_guide` call inside the first loop iteration — before any
timepoint is selected or assigned and before any SREA call — provided at
least one vertex is unexecuted; when every vertex is already executed the
loop never runs and `simulate` returns true without raising. -/
theorem c3_unknown_strategy_fails_in_first_iteration (oracle : SreaOracle)
    (rng : ℕ → ℚ) (fuel : ℕ) (startingStn : STN) (opts : SimOptions) (strat : String)
    (hstrat : strat ∉ (["early", "srea", "drea", "drea-si", "drea-alp", "drea-ar",
      "arsi"] : List String))
    (hfuel : 0 < fuel)
    (hunexec : all_assigned startingStn = false) :
    (simulate oracle rng fuel startingStn strat opts).1 = .crashed .valueError ∧
    (simulate oracle rng fuel startingStn strat opts).2.assignmentStn = startingStn ∧
    (simulate oracle rng fuel startingStn strat opts).2.numReschedules = 0 ∧
    (simulate oracle rng fuel startingStn strat opts).2.numSentSchedules = 0 ∧
    (simulate oracle rng fuel startingStn strat opts).2.sreaCalls = 0 := by
  obtain ⟨f, rfl⟩ : ∃ f, fuel = f + 1 := ⟨fuel - 1, by omega⟩
  unfold simulate
  simp only [simulate_loop]
  rw [all_assigned_resample]
  rw [if_neg (by simp [hunexec])]
  unfold simulate_iteration
  rw [get_guide_unknown _ _ _ _ _ _ _ _ hstrat]
  exact ⟨rfl, rfl, rfl, rfl, rfl⟩

def c3_unexec_stn : STN :=
  { verts := [(0, ⟨false⟩)], edges := [], contingentEdges := [],
    receivedTimepoints := [] }

theorem c3_unknown_strategy_fails_witness :
    (simulate null_oracle (rand_stream none) 3 c3_unexec_stn "noop" default_opts).1
        = .crashed .valueError ∧
    (simulate null_oracle (rand_stream none) 3 c3_unexec_stn "noop" default_opts).2.assignmentStn
        = c3_unexec_stn ∧
    (simulate null_oracle (rand_stream none) 3 c3_unexec_stn "noop" default_opts).2.numReschedules
        = 0 ∧
    (simulate null_oracle (rand_stream none) 3 c3_unexec_stn "noop" default_opts).2.numSentSchedules
        = 0 ∧
    (simulate null_oracle (rand_stream none) 3 c3_unexec_stn "noop" default_opts).2.sreaCalls
        = 0 :=
  c3_unknown_strategy_fails_in_first_iteration null_oracle (rand_stream none) 3
    c3_unexec_stn default_opts "noop" (by decide) (by decide) (by decide)

/-- Claim C5: in `drea-si`, on a non-first step following a contingent
event with a feasible SREA result `(newAlpha, newGuide)`, the new guide is
adopted (and the sent counter bumped) exactly when `p1 - p0 > threshold`
with `k` the unexecuted received timepoints of the new guide,
`p0 = (1 - prevAlpha)^k` and `p1 = (1 - newAlpha)^k`; otherwise the
previous alpha and guide are returned unchanged.  Either way the call
costs one SREA invocation and one reschedule count. -/
theorem c5_si_adoption (oracle : SreaOracle) (previousAlpha : ℚ)
    (previousGuide : STN) (threshold : ℚ) (st : SimState) (newAlpha : ℚ)
    (newGuide : STN) (hres : oracle st.stn = some (newAlpha, newGuide)) :
    drea_si_algorithm oracle previousAlpha previousGuide false true threshold st =
      if (1 - newAlpha) ^ remaining_contingent_count newGuide -
          (1 - previousAlpha) ^ remaining_contingent_count newGuide > threshold then
        ((newAlpha, newGuide),
         { st with sreaCalls := st.sreaCalls + 1,
                   numReschedules := st.numReschedules + 1,
                   numSentSchedules := st.numSentSchedules + 1 })
      else
        ((previousAlpha, previousGuide),
         { st with sreaCalls := st.sreaCalls + 1,
                   numReschedules := st.numReschedules + 1 }) := by
  unfold drea_si_algorithm
  rw [if_neg (by simp), if_neg (by simp)]
  simp only [hres]

def c5_guide : STN :=
  { verts := [(0, ⟨true⟩), (3, ⟨false⟩)], edges := [], contingentEdges := [],
    receivedTimepoints := [3] }

def c5_oracle : SreaOracle := fun _ => some (1/2, c5_guide)

theorem c5_si_adoption_witness :
    drea_si_algorithm c5_oracle 0 tiny_stn false true (1/4) w_state =
      if (1 - (1/2 : ℚ)) ^ remaining_contingent_count c5_guide -
          (1 - (0 : ℚ)) ^ remaining_contingent_count c5_guide > (1/4 : ℚ) then
        (((1/2 : ℚ), c5_guide),
         { w_state with sreaCalls := w_state.sreaCalls + 1,
                        numReschedules := w_state.numReschedules + 1,
                        numSentSchedules := w_state.numSentSchedules + 1 })
      else
        (((0 : ℚ), tiny_stn),
         { w_state with sreaCalls := w_state.sreaCalls + 1,
                        numReschedules := w_state.numReschedules + 1 }) :=
  c5_si_adoption c5_oracle 0 tiny_stn (1/4) w_state (1/2) c5_guide rfl

lemma ar_search_aux_spec (alpha threshold : ℚ) :
    ∀ (fuel n : ℕ),
      n ≤ ar_search_aux alpha threshold n fuel ∧
      ar_search_aux alpha threshold n fuel ≤ n + fuel ∧
      (∀ m, n ≤ m → m < ar_search_aux alpha threshold n fuel →
        (1 - alpha) ^ (m + 1) > threshold) ∧
      (ar_search_aux alpha threshold n fuel < n + fuel →
        (1 - alpha) ^ (ar_search_aux alpha threshold n fuel + 1) ≤ threshold) := by
  intro fuel
  induction fuel with
  | zero =>
    intro n
    simp only [ar_search_aux]
    exact ⟨le_refl n, by omega, fun m hm hlt => absurd (lt_of_le_of_lt hm hlt) (lt_irrefl n),
      fun h => absurd h (by omega)⟩
  | succ f ih =>
    intro n
    rw [show ar_search_aux alpha threshold n (f + 1) =
        (if (1 - alpha) ^ (n + 1) > threshold then ar_search_aux alpha threshold (n + 1) f
         else n) from rfl]
    split_ifs with hcond
    · obtain ⟨ha, hb, hc, hd⟩ := ih (n + 1)
      refine ⟨by omega, by omega, ?_, ?_⟩
      · intro m hm hlt
        rcases eq_or_lt_of_le hm with heq | hgt
        · rw [← heq]
          exact hcond
        · exact hc m hgt hlt
      · intro hlt
        exact hd (by omega)
    · exact ⟨le_refl n, by omega, fun m hm hlt => absurd (lt_of_le_of_lt hm hlt) (lt_irrefl n),
        fun _ => not_lt.mp hcond⟩

/-- Claim C6 counterexample: with `prev_alpha = 1` and `ar_threshold =
1/2`, the bound `(1 - alpha)^(n+1) ≤ threshold` already holds at `n = 1`
(and at `n = 0`), so the smallest `n ≥ 1` satisfying it is `1`; the
code's search nevertheless returns `0`, because its loop starts at
`n = 0` — it computes the smallest `n ≥ 0`, not the smallest `n ≥ 1`. -/
theorem c6_ar_search_counterexample :
    ar_search 1 (1/2) = 0 ∧ ¬ 1 ≤ ar_search 1 (1/2) ∧
    (1 - (1 : ℚ)) ^ (1 + 1) ≤ 1/2 := by
  refine ⟨by decide, by decide, by decide⟩

/-- Claim C6 amended: the AR search computes the smallest `n ≥ 0` (not
`n ≥ 1`) with `(1 - prev_alpha)^(n+1) ≤ ar_threshold`, its inner loop
capped at 100 iterations (so it terminates even when `prev_alpha ≥ 1` or
the threshold is 0); in `drea-ar` on a non-first contingent step SREA is
rerun iff the contingent-event counter `c ≥ n`, on success the counter is
reset to 0 and both counters are bumped, and otherwise
`(prev_alpha, prev_guide, c)` is carried forward unchanged. -/
theorem c6_ar_test_amended (oracle : SreaOracle) (previousAlpha : ℚ)
    (previousGuide : STN) (threshold : ℚ) (counter : ℕ) (st : SimState) :
    ar_search previousAlpha threshold ≤ 100 ∧
    (∀ m, m < ar_search previousAlpha threshold →
      (1 - previousAlpha) ^ (m + 1) > threshold) ∧
    (ar_search previousAlpha threshold < 100 →
      (1 - previousAlpha) ^ (ar_search previousAlpha threshold + 1) ≤ threshold) ∧
    drea_ar_algorithm oracle previousAlpha previousGuide false true threshold
        counter st =
      (if counter ≥ ar_search previousAlpha threshold then
        (match oracle st.stn with
         | some r =>
             ((r.1, r.2, 0),
              { st with sreaCalls := st.sreaCalls + 1,
                        numReschedules := st.numReschedules + 1,
                        numSentSchedules := st.numSentSchedules + 1 })
         | none =>
             ((previousAlpha, previousGuide, counter),
              { st with sreaCalls := st.sreaCalls + 1 }))
      else ((previousAlpha, previousGuide, counter), st)) := by
  obtain ⟨-, hb, hc, hd⟩ := ar_search_aux_spec previousAlpha threshold 100 0
  refine ⟨by simpa [ar_search] using hb, ?_, ?_, ?_⟩
  · intro m hm
    exact hc m (Nat.zero_le m) hm
  · intro hlt
    exact hd (by simpa [ar_search] using hlt)
  · unfold drea_ar_algorithm drea_ar_rest
    by_cases hge : counter ≥ ar_search previousAlpha threshold
    · rw [if_neg (by simp), if_neg (by simp), if_pos (Or.inl hge), if_pos hge]
    · rw [if_neg (by simp), if_neg (by simp), if_neg (by simp [hge]), if_neg hge]

theorem c6_ar_test_amended_witness :
    ar_search 0 (0 : ℚ) ≤ 100 :=
  (c6_ar_test_amended null_oracle 0 tiny_stn 0 7 w_state).1

lemma get_guide_early (oracle : SreaOracle) (previousAlpha : ℚ) (previousGuide : STN)
    (opts : SimOptions) (firstRun executedContingent : Bool) (st : SimState) :
    get_guide oracle "early" previousAlpha previousGuide opts firstRun
      executedContingent st = (.ok (1, st.stn), st) := rfl

lemma simulate_iteration_state (oracle : SreaOracle) (strat : String)
    (opts : SimOptions) (fr ec : Bool) (pa : ℚ) (pg : STN) (st : SimState) :
    (match simulate_iteration oracle strat opts fr ec pa pg st with
      | .inl r => r.2
      | .inr c => c.st).numReschedules
        = (get_guide oracle strat pa pg opts fr ec st).2.numReschedules ∧
    (match simulate_iteration oracle strat opts fr ec pa pg st with
      | .inl r => r.2
      | .inr c => c.st).numSentSchedules
        = (get_guide oracle strat pa pg opts fr ec st).2.numSentSchedules ∧
    (match simulate_iteration oracle strat opts fr ec pa pg st with
      | .inl r => r.2
      | .inr c => c.st).sreaCalls
        = (get_guide oracle strat pa pg opts fr ec st).2.sreaCalls := by
  unfold simulate_iteration
  rcases hg : get_guide oracle strat pa pg opts fr ec st with ⟨res, st1⟩
  cases res with
  | error e => simp
  | ok ag =>
    simp only []
    rcases hsel : (select_next_timepoint st1.stn ag.2 st1.currentTime).1 with _ | vt
    · simp [hsel]
    · simp only [hsel]
      rcases h1 : assign_timepoint ag.2 vt.1 vt.2 with e1 | g2 <;> simp only [h1]
      · simp
      · rcases h2 : assign_timepoint st1.stn vt.1 vt.2 with e2 | s2 <;> simp only [h2]
        · simp
        · rcases h3 : assign_timepoint st1.assignmentStn vt.1 vt.2 with e3 | a3 <;>
            simp only [h3]
          · simp
          · split_ifs <;> exact ⟨rfl, rfl, rfl⟩

lemma simulate_loop_counters (oracle : SreaOracle) (strat : String)
    (opts : SimOptions) (P : ℕ → ℕ → ℕ → Prop)
    (hguide : ∀ (pa : ℚ) (pg : STN) (fr ec : Bool) (st : SimState),
      P st.numReschedules st.numSentSchedules st.sreaCalls →
      P (get_guide oracle strat pa pg opts fr ec st).2.numReschedules
        (get_guide oracle strat pa pg opts fr ec st).2.numSentSchedules
        (get_guide oracle strat pa pg opts fr ec st).2.sreaCalls) :
    ∀ (fuel : ℕ) (fr ec : Bool) (pa : ℚ) (pg : STN) (st : SimState),
      P st.numReschedules st.numSentSchedules st.sreaCalls →
      P (simulate_loop oracle strat opts fuel fr ec pa pg st).2.numReschedules
        (simulate_loop oracle strat opts fuel fr ec pa pg st).2.numSentSchedules
        (simulate_loop oracle strat opts fuel fr ec pa pg st).2.sreaCalls := by
  intro fuel
  induction fuel with
  | zero => intro fr ec pa pg st h; exact h
  | succ n ih =>
    intro fr ec pa pg st h
    rw [simulate_loop]
    split_ifs with hall
    · exact h
    · have hst := simulate_iteration_state oracle strat opts fr ec pa pg st
      have hg := hguide pa pg fr ec st h
      rcases hit : simulate_iteration oracle strat opts fr ec pa pg st with r | c
      · rw [hit] at hst
        simp only [] at hst
        rw [hst.1, hst.2.1, hst.2.2]
        exact hg
      · rw [hit] at hst
        simp only [] at hst
        apply ih
        rw [hst.1, hst.2.1, hst.2.2]
        exact hg

/-- Claim C4: under the `early` strategy `get_guide` returns alpha `1.0`
and the working STN at every step, and for every run — completed or not —
the SREA oracle is never invoked and both `num_reschedules` and
`num_sent_schedules` remain 0. -/
theorem c4_early_strategy_identity :
    (∀ (oracle : SreaOracle) (previousAlpha : ℚ) (previousGuide : STN)
        (opts : SimOptions) (firstRun executedContingent : Bool) (st : SimState),
        get_guide oracle "early" previousAlpha previousGuide opts firstRun
          executedContingent st = (.ok (1, st.stn), st)) ∧
    (∀ (oracle : SreaOracle) (rng : ℕ → ℚ) (fuel : ℕ) (startingStn : STN)
        (opts : SimOptions),
        (simulate oracle rng fuel startingStn "early" opts).2.numReschedules = 0 ∧
        (simulate oracle rng fuel startingStn "early" opts).2.numSentSchedules = 0 ∧
        (simulate oracle rng fuel startingStn "early" opts).2.sreaCalls = 0) := by
  constructor
  · intro oracle pa pg opts fr ec st
    exact get_guide_early oracle pa pg opts fr ec st
  · intro oracle rng fuel startingStn opts
    have h := simulate_loop_counters oracle "early" opts
      (fun r s c => r = 0 ∧ s = 0 ∧ c = 0)
      (fun pa pg fr ec st hp => by rw [get_guide_early]; exact hp)
      fuel true false 0
      (resample_stored_stn rng
        { stn := startingStn, assignmentStn := startingStn, currentTime := 0,
          arContingentEventCounter := 0, numReschedules := 0, numSentSchedules := 0,
          sreaCalls := 0, rngIndex := 0 }).stn
      (resample_stored_stn rng
        { stn := startingStn, assignmentStn := startingStn, currentTime := 0,
          arContingentEventCounter := 0, numReschedules := 0, numSentSchedules := 0,
          sreaCalls := 0, rngIndex := 0 })
      ⟨rfl, rfl, rfl⟩
    exact ⟨h.1, h.2.1, h.2.2⟩

lemma srea_algorithm_mono (oracle : SreaOracle) (pa : ℚ) (pg : STN) (fr : Bool)
    (st : SimState) (h : st.numSentSchedules ≤ st.numReschedules) :
    (srea_algorithm oracle pa pg fr st).2.numSentSchedules ≤
      (srea_algorithm oracle pa pg fr st).2.numReschedules := by
  unfold srea_algorithm srea_wrapper
  split_ifs
  · rcases hor : oracle st.stn with _ | r <;> simp only [hor] <;>
      exact Nat.succ_le_succ h
  · exact h

lemma drea_algorithm_mono (oracle : SreaOracle) (pa : ℚ) (pg : STN) (fr ec : Bool)
    (st : SimState) (h : st.numSentSchedules ≤ st.numReschedules) :
    (drea_algorithm oracle pa pg fr ec st).2.numSentSchedules ≤
      (drea_algorithm oracle pa pg fr ec st).2.numReschedules := by
  unfold drea_algorithm srea_wrapper
  split_ifs
  · rcases hor : oracle st.stn with _ | r <;> simp only [hor] <;>
      exact Nat.succ_le_succ h
  · exact h

lemma drea_si_algorithm_mono (oracle : SreaOracle) (pa : ℚ) (pg : STN) (fr ec : Bool)
    (thr : ℚ) (st : SimState) (h : st.numSentSchedules ≤ st.numReschedules) :
    (drea_si_algorithm oracle pa pg fr ec thr st).2.numSentSchedules ≤
      (drea_si_algorithm oracle pa pg fr ec thr st).2.numReschedules := by
  unfold drea_si_algorithm
  split_ifs
  · rcases hor : oracle st.stn with _ | r <;> simp only [hor] <;>
      exact Nat.succ_le_succ h
  · exact h
  · rcases hor : oracle st.stn with _ | r <;> simp only [hor]
    · exact Nat.le_succ_of_le h
    · split_ifs
      · exact Nat.succ_le_succ h
      · exact Nat.le_succ_of_le h

lemma drea_alp_algorithm_mono (oracle : SreaOracle) (pa : ℚ) (pg : STN) (fr ec : Bool)
    (thr : ℚ) (st : SimState) (h : st.numSentSchedules ≤ st.numReschedules) :
    (drea_alp_algorithm oracle pa pg fr ec thr st).2.numSentSchedules ≤
      (drea_alp_algorithm oracle pa pg fr ec thr st).2.numReschedules := by
  unfold drea_alp_algorithm
  split_ifs
  · rcases hor : oracle st.stn with _ | r <;> simp only [hor] <;>
      exact Nat.le_succ_of_le h
  · exact h
  · rcases hor : oracle st.stn with _ | r <;> simp only [hor]
    · exact Nat.le_succ_of_le h
    · split_ifs
      · exact Nat.succ_le_succ h
      · exact Nat.le_succ_of_le h

lemma drea_ar_rest_mono (oracle : SreaOracle) (pa : ℚ) (pg : STN) (fr ec : Bool)
    (thr : ℚ) (counter : ℕ) (st : SimState)
    (h : st.numSentSchedules ≤ st.numReschedules) :
    (drea_ar_rest oracle pa pg fr ec thr counter st).2.numSentSchedules ≤
      (drea_ar_rest oracle pa pg fr ec thr counter st).2.numReschedules := by
  cases ec with
  | false => exact h
  | true =>
    unfold drea_ar_rest
    by_cases hcond : counter ≥ ar_search pa thr ∨ fr = true
    · rw [if_neg (by simp), if_pos hcond]
      rcases hor : oracle st.stn with _ | r <;> simp only [hor]
      · exact h
      · exact Nat.succ_le_succ h
    · rw [if_neg (by simp), if_neg hcond]
      exact h

lemma drea_ar_algorithm_mono (oracle : SreaOracle) (pa : ℚ) (pg : STN) (fr ec : Bool)
    (thr : ℚ) (counter : ℕ) (st : SimState)
    (h : st.numSentSchedules ≤ st.numReschedules) :
    (drea_ar_algorithm oracle pa pg fr ec thr counter st).2.numSentSchedules ≤
      (drea_ar_algorithm oracle pa pg fr ec thr counter st).2.numReschedules := by
  unfold drea_ar_algorithm
  split_ifs
  · rcases hor : oracle st.stn with _ | r <;> simp only [hor]
    · exact drea_ar_rest_mono oracle pa pg fr ec thr counter
        { st with sreaCalls := st.sreaCalls + 1 } h
    · exact Nat.le_succ_of_le h
  · exact drea_ar_rest_mono oracle pa pg fr ec thr counter st h

lemma arsi_algorithm_mono (oracle : SreaOracle) (pa : ℚ) (pg : STN) (fr ec : Bool)
    (counter : ℕ) (arThr siThr : ℚ) (st : SimState)
    (h : st.numSentSchedules ≤ st.numReschedules) :
    (arsi_algorithm oracle pa pg fr ec counter arThr siThr st).2.numSentSchedules ≤
      (arsi_algorithm oracle pa pg fr ec counter arThr siThr st).2.numReschedules := by
  by_cases hfr : fr = true
  · unfold arsi_algorithm
    rw [if_pos hfr]
    rcases hor : oracle st.stn with _ | r <;> simp only [hor]
    · exact h
    · exact Nat.le_succ_of_le h
  · cases ec with
    | false => unfold arsi_algorithm; rw [if_neg hfr]; exact h
    | true =>
      unfold arsi_algorithm
      rw [if_neg hfr, if_neg (by simp)]
      by_cases hcond : counter ≥ ar_search pa arThr
      · rw [if_pos hcond]
        rcases hor : oracle st.stn with _ | r <;> simp only [hor]
        · exact Nat.le_succ_of_le h
        · split_ifs
          · exact Nat.succ_le_succ h
          · exact Nat.le_succ_of_le h
      · rw [if_neg hcond]
        exact h

lemma get_guide_counter_mono (oracle : SreaOracle) (strat : String) (pa : ℚ)
    (pg : STN) (opts : SimOptions) (fr ec : Bool) (st : SimState)
    (h : st.numSentSchedules ≤ st.numReschedules) :
    (get_guide oracle strat pa pg opts fr ec st).2.numSentSchedules ≤
      (get_guide oracle strat pa pg opts fr ec st).2.numReschedules := by
  obtain ⟨siT, arT, alpT⟩ := opts
  unfold get_guide
  by_cases h1 : strat = "early"
  · rw [if_pos h1]
    exact h
  rw [if_neg h1]
  by_cases h2 : strat = "srea"
  · rw [if_pos h2]
    exact srea_algorithm_mono oracle pa pg fr st h
  rw [if_neg h2]
  by_cases h3 : strat = "drea"
  · rw [if_pos h3]
    exact drea_algorithm_mono oracle pa pg fr ec st h
  rw [if_neg h3]
  by_cases h4 : strat = "drea-si"
  · rw [if_pos h4]
    cases siT with
    | none => exact h
    | some thr => exact drea_si_algorithm_mono oracle pa pg fr ec thr st h
  rw [if_neg h4]
  by_cases h5 : strat = "drea-alp"
  · rw [if_pos h5]
    cases alpT with
    | none => exact h
    | some thr => exact drea_alp_algorithm_mono oracle pa pg fr ec thr st h
  rw [if_neg h5]
  by_cases h6 : strat = "drea-ar"
  · rw [if_pos h6]
    cases arT with
    | none => exact h
    | some thr =>
      cases ec with
      | false =>
        exact drea_ar_algorithm_mono oracle pa pg fr false thr
          st.arContingentEventCounter
          { st with arContingentEventCounter := st.arContingentEventCounter } h
      | true =>
        exact drea_ar_algorithm_mono oracle pa pg fr true thr
          (st.arContingentEventCounter + 1)
          { st with arContingentEventCounter := st.arContingentEventCounter + 1 } h
  rw [if_neg h6]
  by_cases h7 : strat = "arsi"
  · rw [if_pos h7]
    cases arT with
    | none => exact h
    | some arThr =>
      cases siT with
      | none => exact h
      | some siThr =>
        cases ec with
        | false =>
          exact arsi_algorithm_mono oracle pa pg fr false
            st.arContingentEventCounter arThr siThr
            { st with arContingentEventCounter := st.arContingentEventCounter } h
        | true =>
          exact arsi_algorithm_mono oracle pa pg fr true
            (st.arContingentEventCounter + 1) arThr siThr
            { st with arContingentEventCounter := st.arContingentEventCounter + 1 } h
  rw [if_neg h7]
  exact h

/-- Claim C7: the counter law `num_sent_schedules ≤ num_reschedules`.
Only `get_guide` touches the two counters, every `get_guide` call
preserves the inequality under every strategy string, and a full
`simulate` run — which starts both counters at 0 — therefore satisfies it
at every point, in particular at its final state, whatever the outcome. -/
theorem c7_counter_law :
    (∀ (oracle : SreaOracle) (strat : String) (previousAlpha : ℚ)
        (previousGuide : STN) (opts : SimOptions) (firstRun executedContingent : Bool)
        (st : SimState),
        st.numSentSchedules ≤ st.numReschedules →
        (get_guide oracle strat previousAlpha previousGuide opts firstRun
            executedContingent st).2.numSentSchedules ≤
          (get_guide oracle strat previousAlpha previousGuide opts firstRun
            executedContingent st).2.numReschedules) ∧
    (∀ (oracle : SreaOracle) (rng : ℕ → ℚ) (fuel : ℕ) (startingStn : STN)
        (strat : String) (opts : SimOptions),
        (simulate oracle rng fuel startingStn strat opts).2.numSentSchedules ≤
          (simulate oracle rng fuel startingStn strat opts).2.numReschedules) := by
  constructor
  · intro oracle strat pa pg opts fr ec st h
    exact get_guide_counter_mono oracle strat pa pg opts fr ec st h
  · intro oracle rng fuel startingStn strat opts
    exact simulate_loop_counters oracle strat opts (fun r s _ => s ≤ r)
      (fun pa pg fr ec st hp => get_guide_counter_mono oracle strat pa pg opts fr ec st hp)
      fuel true false 0
      (resample_stored_stn rng
        { stn := startingStn, assignmentStn := startingStn, currentTime := 0,
          arContingentEventCounter := 0, numReschedules := 0, numSentSchedules := 0,
          sreaCalls := 0, rngIndex := 0 }).stn
      (resample_stored_stn rng
        { stn := startingStn, assignmentStn := startingStn, currentTime := 0,
          arContingentEventCounter := 0, numReschedules := 0, numSentSchedules := 0,
          sreaCalls := 0, rngIndex := 0 })
      (Nat.le_refl 0)

theorem c7_counter_law_witness :
    (get_guide null_oracle "drea" 0 tiny_stn default_opts true false w_state).2.numSentSchedules ≤
      (get_guide null_oracle "drea" 0 tiny_stn default_opts true false w_state).2.numReschedules :=
  c7_counter_law.1 null_oracle "drea" 0 tiny_stn default_opts true false w_state
    (Nat.le_refl 0)
